import Mathlib

/-!
Shallow embedding of the pc-server connection/session layer of the
xbox-controller repository (files controller.py, mouse_keyboard.py,
session_manager.py, server.py), together with theorems settling the
frozen claims about it.

Python dictionaries are modelled as association lists in insertion order;
Python floats as rationals; wall-clock times as natural-number instants
passed in explicitly; the external ViGEmBus gamepad provider and the pynput
input sink as explicit state recording the injected events.
-/

namespace XboxController

/-! ### Association-list dictionaries (Python dict semantics) -/

/-- Lookup in an association list, like Python `d.get(k)`. -/
def dictGet {α β : Type} [DecidableEq α] : List (α × β) → α → Option β
  | [], _ => none
  | p :: rest, k => if p.1 = k then some p.2 else dictGet rest k

/-- Replace the value stored under an existing key, like `d[k] = v` on a
present key (Python keeps the insertion position). -/
def dictSet {α β : Type} [DecidableEq α] (l : List (α × β)) (k : α) (v : β) :
    List (α × β) :=
  l.map (fun p => if p.1 = k then (k, v) else p)

/-- Delete a key, like Python `del d[k]`. -/
def dictRemove {α β : Type} [DecidableEq α] (l : List (α × β)) (k : α) :
    List (α × β) :=
  l.filter (fun p => decide (p.1 ≠ k))

/-- The key list of an association list, in insertion order. -/
def dictKeys {α β : Type} (l : List (α × β)) : List α := l.map Prod.fst

/-- Opaque WebSocket connection handles. -/
abbrev Conn := Nat

/-! ### controller.py -/

/-- SessionManager.MAX_PLAYERS. -/
def MAX_PLAYERS : Nat := 4

/-- ControllerManager.MAX_CONTROLLERS. -/
def MAX_CONTROLLERS : Nat := 4

/-- ControllerState: the mirror copy of the last input kept on the
VirtualController (`self.state`). -/
structure ControllerState where
  buttons : List (String × Bool)
  triggers : List (String × Rat)
  axes : List (String × Rat)
deriving DecidableEq

/-- ControllerState.default from controller.py. -/
def ControllerState.default : ControllerState :=
  { buttons := [("a", false), ("b", false), ("x", false), ("y", false),
      ("lb", false), ("rb", false), ("start", false), ("back", false),
      ("guide", false), ("l3", false), ("r3", false), ("dpad_up", false),
      ("dpad_down", false), ("dpad_left", false), ("dpad_right", false)],
    triggers := [("lt", 0), ("rt", 0)],
    axes := [("left_x", 0), ("left_y", 0), ("right_x", 0), ("right_y", 0)] }

/-- The state of one vgamepad VX360Gamepad device as the provider sees it:
the set of pressed XUSB buttons (we key them by the repository's own button
names, the map to XUSB constants being injective) and the float trigger and
stick values last pushed. -/
structure Gamepad where
  pressedButtons : List String
  lt : Rat
  rt : Rat
  left_x : Rat
  left_y : Rat
  right_x : Rat
  right_y : Rat
deriving DecidableEq

/-- A freshly created VX360Gamepad is neutral. -/
def Gamepad.init : Gamepad := ⟨[], 0, 0, 0, 0, 0, 0⟩

/-- gamepad.press_button: adds the button to the pressed set. -/
def Gamepad.press_button (g : Gamepad) (b : String) : Gamepad :=
  if b ∈ g.pressedButtons then g
  else { g with pressedButtons := g.pressedButtons ++ [b] }

/-- gamepad.release_button: removes the button from the pressed set. -/
def Gamepad.release_button (g : Gamepad) (b : String) : Gamepad :=
  { g with pressedButtons := g.pressedButtons.filter (fun x => decide (x ≠ b)) }

/-- The key set of VirtualController.BUTTON_MAP. -/
def BUTTON_MAP : List String :=
  ["a", "b", "x", "y", "lb", "rb", "start", "back", "guide", "l3", "r3",
   "dpad_up", "dpad_down", "dpad_left", "dpad_right"]

/-- VirtualController from controller.py. -/
structure VirtualController where
  player_id : Nat
  gamepad : Option Gamepad
  state : ControllerState
  connected : Bool
deriving DecidableEq

/-- VirtualController.__init__. -/
def VirtualController.new (pid : Nat) : VirtualController :=
  ⟨pid, none, ControllerState.default, false⟩

/-- VirtualController.is_connected property. -/
def VirtualController.is_connected (c : VirtualController) : Bool :=
  c.connected && c.gamepad.isSome

/-- VirtualController.connect: `providerOk` says whether the ViGEmBus call
`vg.VX360Gamepad()` succeeds; on failure the exception is caught and False
returned, leaving the controller unconnected. -/
def VirtualController.connect (c : VirtualController) (providerOk : Bool) :
    VirtualController × Bool :=
  if providerOk then
    ({ c with gamepad := some Gamepad.init, connected := true }, true)
  else (c, false)

/-- Python `max(lo, min(hi, x))` used for clamping in update_state. -/
def clampTo (lo hi x : Rat) : Rat := max lo (min hi x)

/-- Python `d.get(key, 0.0)` on a float dict. -/
def floatGet (l : List (String × Rat)) (k : String) : Rat := (dictGet l k).getD 0

/-- The button loop of VirtualController.update_state: for each supplied
button name in BUTTON_MAP, press or release it on the gamepad. -/
def applyButtons (g : Gamepad) (buttons : List (String × Bool)) : Gamepad :=
  buttons.foldl
    (fun g bp =>
      if bp.1 ∈ BUTTON_MAP then
        if bp.2 then g.press_button bp.1 else g.release_button bp.1
      else g)
    g

/-- VirtualController.update_state. -/
def VirtualController.update_state (c : VirtualController)
    (buttons : List (String × Bool)) (triggers : List (String × Rat))
    (axes : List (String × Rat)) : VirtualController :=
  if c.is_connected then
    match c.gamepad with
    | none => c
    | some g =>
      let g := applyButtons g buttons
      let lt_value := clampTo 0 1 (floatGet triggers "lt")
      let rt_value := clampTo 0 1 (floatGet triggers "rt")
      let left_x := clampTo (-1) 1 (floatGet axes "left_x")
      let left_y := clampTo (-1) 1 (floatGet axes "left_y")
      let right_x := clampTo (-1) 1 (floatGet axes "right_x")
      let right_y := clampTo (-1) 1 (floatGet axes "right_y")
      { c with
          gamepad := some { g with lt := lt_value, rt := rt_value,
                                   left_x := left_x, left_y := left_y,
                                   right_x := right_x, right_y := right_y },
          state := ⟨buttons, triggers, axes⟩ }
  else c

/-- ControllerManager from controller.py. -/
structure ControllerManager where
  controllers : List (Nat × VirtualController)
deriving DecidableEq

/-- ControllerManager.create_controller. `providerOk` models whether the
Virtual Device Provider can create a new device right now. -/
def ControllerManager.create_controller (cm : ControllerManager)
    (player_id : Nat) (providerOk : Bool) :
    Option VirtualController × ControllerManager :=
  if player_id < 1 ∨ player_id > MAX_CONTROLLERS then (none, cm)
  else
    match dictGet cm.controllers player_id with
    | some c => (some c, cm)
    | none =>
      let c := VirtualController.new player_id
      let r := c.connect providerOk
      if r.2 then (some r.1, ⟨cm.controllers ++ [(player_id, r.1)]⟩)
      else (none, cm)

/-- ControllerManager.get_controller. -/
def ControllerManager.get_controller (cm : ControllerManager) (player_id : Nat) :
    Option VirtualController :=
  dictGet cm.controllers player_id

/-- ControllerManager.remove_controller: disconnects and deletes the
controller when present. The returned Bool records whether a device was
actually released (disconnect called), for counting releases. -/
def ControllerManager.remove_controller (cm : ControllerManager)
    (player_id : Nat) : ControllerManager × Bool :=
  match dictGet cm.controllers player_id with
  | some _ => (⟨dictRemove cm.controllers player_id⟩, true)
  | none => (cm, false)

/-! ### mouse_keyboard.py -/

/-- Python `int()` truncation toward zero on a float. -/
def pyInt (q : Rat) : Int := if 0 ≤ q then q.floor else q.ceil

/-- MouseKeyboardController state plus the stream of events it has injected
into the host. `hostLeftHeld`/`hostRightHeld` track whether the host mouse
button is held as a result of the injected press/release events (the host
starts with no injected button held). -/
structure MKState where
  left_button_pressed : Bool
  right_button_pressed : Bool
  mouse_sensitivity : Rat
  hostLeftHeld : Bool
  hostRightHeld : Bool
  hostMoves : List (Int × Int)
  hostScrolls : List (Rat × Rat)
  hostClicks : List String
  kbEvents : List (String × String)
deriving DecidableEq

/-- MouseKeyboardController.__init__. -/
def MKState.init : MKState := ⟨false, false, 2, false, false, [], [], [], []⟩

/-- The `Button.left if button == "left" else Button.right` mapping. -/
def btnOf (button : String) : String := if button = "left" then "left" else "right"

/-- Effect on the host of an injected mouse-press event. -/
def MKState.hostPress (mk : MKState) (btn : String) : MKState :=
  if btn = "left" then { mk with hostLeftHeld := true }
  else { mk with hostRightHeld := true }

/-- Effect on the host of an injected mouse-release event. -/
def MKState.hostRelease (mk : MKState) (btn : String) : MKState :=
  if btn = "left" then { mk with hostLeftHeld := false }
  else { mk with hostRightHeld := false }

/-- MouseKeyboardController.move_mouse. -/
def MKState.move_mouse (mk : MKState) (delta_x delta_y : Rat) : MKState :=
  let dx := pyInt (delta_x * mk.mouse_sensitivity)
  let dy := pyInt (delta_y * mk.mouse_sensitivity)
  if dx ≠ 0 ∨ dy ≠ 0 then { mk with hostMoves := mk.hostMoves ++ [(dx, dy)] }
  else mk

/-- MouseKeyboardController.click: an injected click is a press followed by
a release, so the host button ends up not held. -/
def MKState.click (mk : MKState) (button : String) : MKState :=
  let btn := btnOf button
  { (mk.hostPress btn).hostRelease btn with hostClicks := mk.hostClicks ++ [btn] }

/-- MouseKeyboardController.press_mouse. -/
def MKState.press_mouse (mk : MKState) (button : String) : MKState :=
  let btn := btnOf button
  if button = "left" ∧ mk.left_button_pressed = false then
    { mk.hostPress btn with left_button_pressed := true }
  else if button = "right" ∧ mk.right_button_pressed = false then
    { mk.hostPress btn with right_button_pressed := true }
  else mk

/-- MouseKeyboardController.release_mouse. -/
def MKState.release_mouse (mk : MKState) (button : String) : MKState :=
  let btn := btnOf button
  if button = "left" ∧ mk.left_button_pressed = true then
    { mk.hostRelease btn with left_button_pressed := false }
  else if button = "right" ∧ mk.right_button_pressed = true then
    { mk.hostRelease btn with right_button_pressed := false }
  else mk

/-- MouseKeyboardController.scroll. -/
def MKState.scroll (mk : MKState) (dx dy : Rat) : MKState :=
  { mk with hostScrolls := mk.hostScrolls ++ [(dx, dy)] }

/-- MouseKeyboardController.type_text. -/
def MKState.type_text (mk : MKState) (text : String) : MKState :=
  if text ≠ "" then { mk with kbEvents := mk.kbEvents ++ [("type", text)] }
  else mk

/-- The key set of the key_map in press_key. -/
def PRESS_KEY_MAP : List String :=
  ["enter", "space", "backspace", "tab", "escape", "up", "down", "left",
   "right", "ctrl", "alt", "shift", "delete", "home", "end", "pageup",
   "pagedown", "f1", "f2", "f3", "f4", "f5", "f6", "f7", "f8", "f9", "f10",
   "f11", "f12"]

/-- MouseKeyboardController.press_key. -/
def MKState.press_key (mk : MKState) (key : String) : MKState :=
  if key.toLower ∈ PRESS_KEY_MAP then
    { mk with kbEvents :=
        mk.kbEvents ++ [("press", key.toLower), ("release", key.toLower)] }
  else if key.length = 1 then
    { mk with kbEvents := mk.kbEvents ++ [("press", key), ("release", key)] }
  else mk

/-- The key set of the key_map in key_combination. -/
def COMBO_KEY_MAP : List String := ["ctrl", "alt", "shift", "win"]

/-- MouseKeyboardController.key_combination. The caller guards against an
empty list, so the `none` branch mirrors the IndexError being unreachable. -/
def MKState.key_combination (mk : MKState) (ks : List String) : MKState :=
  match ks.getLast? with
  | none => mk
  | some final_key =>
    let pressed := (ks.dropLast.filter
        (fun k => decide (k.toLower ∈ COMBO_KEY_MAP))).map (fun k => k.toLower)
    let ev1 := pressed.map (fun k => ("press", k))
    let ev2 :=
      if final_key.toLower ∈ COMBO_KEY_MAP then
        [("press", final_key.toLower), ("release", final_key.toLower)]
      else if final_key.length = 1 then
        [("press", final_key), ("release", final_key)]
      else []
    let ev3 := pressed.reverse.map (fun k => ("release", k))
    { mk with kbEvents := mk.kbEvents ++ ev1 ++ ev2 ++ ev3 }

/-! ### session_manager.py -/

/-- PlayerSession dataclass. Timestamps are abstract instants. -/
structure PlayerSession where
  player_id : Nat
  websocket : Conn
  connected_at : Nat
  last_input_at : Nat
deriving DecidableEq

/-- PlayerSession.update_activity at instant `now`. -/
def PlayerSession.update_activity (s : PlayerSession) (now : Nat) : PlayerSession :=
  { s with last_input_at := now }

/-- SessionManager's two maps. -/
structure SessionManager where
  sessions : List (Nat × PlayerSession)
  websocket_to_player : List (Conn × Nat)
deriving DecidableEq

/-- SessionManager._get_available_id: the first id in 1..MAX_PLAYERS not in
`sessions`. -/
def SessionManager.get_available_id (sm : SessionManager) : Option Nat :=
  (List.range' 1 MAX_PLAYERS).find? (fun i => (dictGet sm.sessions i).isNone)

/-- SessionManager.get_player_count. -/
def SessionManager.get_player_count (sm : SessionManager) : Nat :=
  sm.sessions.length

/-- SessionManager.get_player_id. -/
def SessionManager.get_player_id (sm : SessionManager) (ws : Conn) : Option Nat :=
  dictGet sm.websocket_to_player ws

/-- SessionManager.get_session. -/
def SessionManager.get_session (sm : SessionManager) (player_id : Nat) :
    Option PlayerSession :=
  dictGet sm.sessions player_id

/-- SessionManager.update_activity. -/
def SessionManager.update_activity (sm : SessionManager) (player_id : Nat)
    (now : Nat) : SessionManager :=
  match dictGet sm.sessions player_id with
  | some s => { sm with sessions := dictSet sm.sessions player_id (s.update_activity now) }
  | none => sm

/-- The Python truthiness test `if exclude_player and player_id == exclude_player`
in SessionManager.broadcast. -/
def skipInBroadcast (exclude_player : Option Nat) (player_id : Nat) : Bool :=
  match exclude_player with
  | none => false
  | some e => decide (e ≠ 0) && decide (player_id = e)

/-- SessionManager.broadcast. `sendOk ws` says whether the send to that
websocket succeeds. Returns the successfully delivered (websocket, message)
pairs in order, and the player ids whose send failed (each failure is caught
and logged inside the loop). -/
def SessionManager.broadcast (sm : SessionManager) (message : String)
    (exclude_player : Option Nat) (sendOk : Conn → Bool) :
    List (Conn × String) × List Nat :=
  sm.sessions.foldl
    (fun acc ps =>
      if skipInBroadcast exclude_player ps.1 then acc
      else if sendOk ps.2.websocket then (acc.1 ++ [(ps.2.websocket, message)], acc.2)
      else (acc.1, acc.2 ++ [ps.1]))
    ([], [])

/-! ### server.py -/

/-- Frames the server sends to a client. -/
inductive OutFrame
  | errorFrame (message : String)
  | connectedFrame (playerId : Nat)
  | pongFrame
deriving DecidableEq

/-- The error message sent when the registry is full. -/
def serverFullError : String := "Server is full (max 4 players)"

/-- The whole observable state of one ControllerServer: the two managers it
composes, the shared mouse/keyboard singleton, and logs of outbound frames,
closed connections and device releases. -/
structure ServerState where
  sm : SessionManager
  cm : ControllerManager
  mouse_keyboard : MKState
  sent : List (Conn × OutFrame)
  closedConns : List Conn
  releases : List Nat
deriving DecidableEq

/-- A freshly constructed ControllerServer. -/
def initServer : ServerState :=
  ⟨⟨[], []⟩, ⟨[]⟩, MKState.init, [], [], []⟩

/-- ControllerServer._on_player_connected: creates the controller, ignoring
the result (the GUI callback does not affect core state). -/
def ServerState.on_player_connected (st : ServerState) (player_id : Nat)
    (providerOk : Bool) : ServerState :=
  { st with cm := (st.cm.create_controller player_id providerOk).2 }

/-- ControllerServer._on_player_disconnected: removes the controller,
logging a release when one existed. -/
def ServerState.on_player_disconnected (st : ServerState) (player_id : Nat) :
    ServerState :=
  let r := st.cm.remove_controller player_id
  { st with cm := r.1,
            releases := if r.2 then st.releases ++ [player_id] else st.releases }

/-- SessionManager.add_player as run by the server (the registered
on_player_connected callback is the server's). -/
def ServerState.add_player (st : ServerState) (ws : Conn) (now : Nat)
    (providerOk : Bool) : ServerState × Option Nat :=
  match dictGet st.sm.websocket_to_player ws with
  | some pid => (st, some pid)
  | none =>
    match st.sm.get_available_id with
    | none => (st, none)
    | some player_id =>
      let session : PlayerSession := ⟨player_id, ws, now, now⟩
      let st := { st with
        sm := ⟨st.sm.sessions ++ [(player_id, session)],
               st.sm.websocket_to_player ++ [(ws, player_id)]⟩ }
      (st.on_player_connected player_id providerOk, some player_id)

/-- SessionManager.remove_player as run by the server. -/
def ServerState.remove_player (st : ServerState) (ws : Conn) :
    ServerState × Option Nat :=
  match dictGet st.sm.websocket_to_player ws with
  | none => (st, none)
  | some player_id =>
    let st := { st with
      sm := ⟨dictRemove st.sm.sessions player_id,
             dictRemove st.sm.websocket_to_player ws⟩ }
    (st.on_player_disconnected player_id, some player_id)

/-- The handshake part of ControllerServer.handle_client: assign a player
id; on Full send the error frame and close, otherwise send the welcome
frame. -/
def ServerState.handle_client_connect (st : ServerState) (ws : Conn)
    (now : Nat) (providerOk : Bool) : ServerState × Option Nat :=
  let r := st.add_player ws now providerOk
  match r.2 with
  | none =>
    ({ r.1 with sent := r.1.sent ++ [(ws, OutFrame.errorFrame serverFullError)],
                closedConns := r.1.closedConns ++ [ws] }, none)
  | some player_id =>
    ({ r.1 with sent := r.1.sent ++ [(ws, OutFrame.connectedFrame player_id)] },
     some player_id)

/-- One parsed inbound message, as ControllerServer._process_message sees it
after json.loads and the .get defaults. `malformed` is a frame that fails to
decode (json.JSONDecodeError caught, message discarded). -/
inductive ClientMsg
  | input (buttons : List (String × Bool)) (triggers : List (String × Rat))
      (axes : List (String × Rat))
  | mouse (action : String) (dx dy : Rat) (button : String)
  | keyboard (action : String) (text : String) (key : String) (ks : List String)
  | ping
  | disconnect
  | unknownType (t : String)
  | malformed
deriving DecidableEq

/-- ControllerServer._process_message at instant `now`. -/
def ServerState.process_message (st : ServerState) (player_id : Nat)
    (msg : ClientMsg) (now : Nat) : ServerState :=
  match msg with
  | .input buttons triggers axes =>
    match st.cm.get_controller player_id with
    | some controller =>
      let c := controller.update_state buttons triggers axes
      { st with cm := ⟨dictSet st.cm.controllers player_id c⟩,
                sm := st.sm.update_activity player_id now }
    | none => st
  | .mouse action dx dy button =>
    let mk0 := st.mouse_keyboard
    let mk1 :=
      if action = "move" then mk0.move_mouse dx dy
      else if action = "click" then mk0.click button
      else if action = "press" then mk0.press_mouse button
      else if action = "release" then mk0.release_mouse button
      else if action = "scroll" then mk0.scroll dx dy
      else mk0
    { st with mouse_keyboard := mk1, sm := st.sm.update_activity player_id now }
  | .keyboard action text key ks =>
    let mk0 := st.mouse_keyboard
    let mk1 :=
      if action = "type" then mk0.type_text text
      else if action = "key" then mk0.press_key key
      else if action = "combo" then (if ks ≠ [] then mk0.key_combination ks else mk0)
      else mk0
    { st with mouse_keyboard := mk1, sm := st.sm.update_activity player_id now }
  | .ping =>
    match st.sm.get_session player_id with
    | some session =>
      { st with sent := st.sent ++ [(session.websocket, OutFrame.pongFrame)] }
    | none => st
  | .disconnect =>
    match st.sm.get_session player_id with
    | some session => { st with closedConns := st.closedConns ++ [session.websocket] }
    | none => st
  | .unknownType _ => st
  | .malformed => st

/-- The ways the `async for` receive loop can end. -/
inductive LoopEnd
  | graceful
  | connectionClosed
  | exception
  | forcedTimeout
deriving DecidableEq

/-- The receive loop of handle_client: process each arriving message (paired
with its arrival instant) in order. -/
def ServerState.runReceiveLoop (st : ServerState) (player_id : Nat)
    (msgs : List (ClientMsg × Nat)) : ServerState :=
  msgs.foldl (fun st m => st.process_message player_id m.1 m.2) st

/-- The post-handshake part of handle_client: run the receive loop, then,
however the loop ended, the `finally` block removes the player. -/
def ServerState.handle_client_session (st : ServerState) (ws : Conn)
    (player_id : Nat) (msgs : List (ClientMsg × Nat)) (_ending : LoopEnd) :
    ServerState :=
  ((st.runReceiveLoop player_id msgs).remove_player ws).1

/-- Run a list of connect attempts in order (all with the device provider
available), collecting each attempt's assigned id. -/
def runConnects : ServerState → List Conn → ServerState × List (Option Nat)
  | st, [] => (st, [])
  | st, c :: rest =>
    let r := st.handle_client_connect c 0 true
    let rr := runConnects r.1 rest
    (rr.1, r.2 :: rr.2)

/-- The last-activity instant recorded for a player, when a session exists. -/
def lastInputAt (st : ServerState) (player_id : Nat) : Option Nat :=
  (dictGet st.sm.sessions player_id).map (fun s => s.last_input_at)

/-- The id `_get_available_id` is specified to return: the lowest integer in
1..MAX_PLAYERS that no live session uses. -/
def isLowestUnusedId (sm : SessionManager) (i : Nat) : Prop :=
  1 ≤ i ∧ i ≤ MAX_PLAYERS ∧ dictGet sm.sessions i = none ∧
    ∀ j, 1 ≤ j → j < i → (dictGet sm.sessions j).isSome = true

/-- The pairs (start + k, l[k]), pairing connections with player ids. -/
def pairsFromAux (start : Nat) : List Conn → List (Nat × Conn)
  | [] => []
  | c :: rest => (start, c) :: pairsFromAux (start + 1) rest

/-- The controller create_controller builds when the provider succeeds. -/
def freshController (pid : Nat) : VirtualController :=
  ⟨pid, some Gamepad.init, ControllerState.default, true⟩

/-- The server state after the connections `conns` (all distinct, at most 4)
have connected in order starting from a fresh server, with the device
provider available: connection k holds player id k+1. -/
def expectedAfter (conns : List Conn) : ServerState :=
  { sm := ⟨(pairsFromAux 1 conns).map (fun p => (p.1, ⟨p.1, p.2, 0, 0⟩)),
           (pairsFromAux 1 conns).map (fun p => (p.2, p.1))⟩,
    cm := ⟨(pairsFromAux 1 conns).map (fun p => (p.1, freshController p.1))⟩,
    mouse_keyboard := MKState.init,
    sent := (pairsFromAux 1 conns).map (fun p => (p.2, OutFrame.connectedFrame p.1)),
    closedConns := [],
    releases := [] }

/-- A press or release call on the Input Sink, as dispatched by the mouse
branch of _process_message. -/
inductive MouseOp
  | press (button : String)
  | release (button : String)
deriving DecidableEq

/-- Run a sequence of press/release calls. -/
def runMouseOps (mk : MKState) : List MouseOp → MKState
  | [] => mk
  | op :: rest =>
    runMouseOps
      (match op with
        | .press b => mk.press_mouse b
        | .release b => mk.release_mouse b)
      rest

/-- The tracked pressed flag of each button agrees with whether the host
button is held. -/
def mouseFlagsTrackHost (mk : MKState) : Prop :=
  mk.left_button_pressed = mk.hostLeftHeld ∧
    mk.right_button_pressed = mk.hostRightHeld

/-- A sample session used for concrete counterexamples and witnesses. -/
def sampleSession : PlayerSession := ⟨1, 100, 0, 0⟩

/-- A server with player 1 connected on websocket 100 but no controller
bound (the state left behind by a device-bind failure). -/
def sampleState : ServerState :=
  ⟨⟨[(1, sampleSession)], [(100, 1)]⟩, ⟨[]⟩, MKState.init, [], [], []⟩

/-- A server with player 1 connected on websocket 100 and a bound
controller. -/
def sampleBoundState : ServerState :=
  ⟨⟨[(1, sampleSession)], [(100, 1)]⟩, ⟨[(1, freshController 1)]⟩,
   MKState.init, [], [], []⟩

/-! ## Helper lemmas about the dictionary model -/

theorem dictGet_nil {α β : Type} [DecidableEq α] (k : α) :
    dictGet ([] : List (α × β)) k = none := rfl

theorem dictGet_cons {α β : Type} [DecidableEq α] (p : α × β)
    (rest : List (α × β)) (k : α) :
    dictGet (p :: rest) k = if p.1 = k then some p.2 else dictGet rest k := rfl

theorem dictKeys_nil {α β : Type} : dictKeys ([] : List (α × β)) = [] := rfl

theorem dictKeys_cons {α β : Type} (p : α × β) (rest : List (α × β)) :
    dictKeys (p :: rest) = p.1 :: dictKeys rest := rfl

theorem dictKeys_append {α β : Type} (l₁ l₂ : List (α × β)) :
    dictKeys (l₁ ++ l₂) = dictKeys l₁ ++ dictKeys l₂ := by
  simp [dictKeys]

theorem length_dictKeys {α β : Type} (l : List (α × β)) :
    (dictKeys l).length = l.length := by
  simp [dictKeys]

theorem dictSet_cons {α β : Type} [DecidableEq α] (p : α × β)
    (rest : List (α × β)) (k : α) (v : β) :
    dictSet (p :: rest) k v =
      (if p.1 = k then (k, v) else p) :: dictSet rest k v := rfl

theorem dictRemove_nil {α β : Type} [DecidableEq α] (k : α) :
    dictRemove ([] : List (α × β)) k = [] := rfl

theorem dictRemove_cons {α β : Type} [DecidableEq α] (p : α × β)
    (rest : List (α × β)) (k : α) :
    dictRemove (p :: rest) k =
      if p.1 = k then dictRemove rest k else p :: dictRemove rest k := by
  by_cases h : p.1 = k <;> simp [dictRemove, List.filter, h]

theorem dictGet_eq_none_iff {α β : Type} [DecidableEq α] (l : List (α × β))
    (k : α) : dictGet l k = none ↔ k ∉ dictKeys l := by
  induction l with
  | nil => simp [dictGet_nil, dictKeys_nil]
  | cons p rest ih =>
    rw [dictGet_cons, dictKeys_cons]
    by_cases h : p.1 = k
    · subst h
      simp
    · rw [if_neg h, ih]
      constructor
      · intro hk
        rw [List.mem_cons]
        push_neg
        exact ⟨fun he => h he.symm, hk⟩
      · exact fun hk hm => hk (List.mem_cons_of_mem _ hm)

theorem dictGet_isSome_iff {α β : Type} [DecidableEq α] (l : List (α × β))
    (k : α) : (dictGet l k).isSome = true ↔ k ∈ dictKeys l := by
  rw [Option.isSome_iff_ne_none, Ne, dictGet_eq_none_iff, not_not]

theorem dictGet_append {α β : Type} [DecidableEq α] (l₁ l₂ : List (α × β))
    (k : α) :
    dictGet (l₁ ++ l₂) k =
      match dictGet l₁ k with
      | some v => some v
      | none => dictGet l₂ k := by
  induction l₁ with
  | nil => simp [dictGet_nil]
  | cons p rest ih =>
    rw [List.cons_append, dictGet_cons, dictGet_cons]
    by_cases h : p.1 = k <;> simp [h, ih]

theorem dictKeys_dictSet {α β : Type} [DecidableEq α] (l : List (α × β))
    (k : α) (v : β) : dictKeys (dictSet l k v) = dictKeys l := by
  induction l with
  | nil => rfl
  | cons p rest ih =>
    rw [dictSet_cons, dictKeys_cons, dictKeys_cons, ih]
    by_cases h : p.1 = k
    · rw [if_pos h, h]
    · rw [if_neg h]

theorem dictGet_dictSet_self {α β : Type} [DecidableEq α] {l : List (α × β)}
    {k : α} {v : β} (w : β) (h : dictGet l k = some v) :
    dictGet (dictSet l k w) k = some w := by
  induction l with
  | nil => rw [dictGet_nil] at h; cases h
  | cons p rest ih =>
    rw [dictSet_cons, dictGet_cons]
    rw [dictGet_cons] at h
    by_cases hp : p.1 = k
    · simp [hp]
    · rw [if_neg hp] at h
      simp [hp, ih h]

theorem dictGet_dictRemove_self {α β : Type} [DecidableEq α]
    (l : List (α × β)) (k : α) : dictGet (dictRemove l k) k = none := by
  induction l with
  | nil => rfl
  | cons p rest ih =>
    rw [dictRemove_cons]
    by_cases h : p.1 = k
    · rw [if_pos h]; exact ih
    · rw [if_neg h, dictGet_cons, if_neg h]; exact ih

theorem dictRemove_of_not_mem {α β : Type} [DecidableEq α] {l : List (α × β)}
    {k : α} (h : k ∉ dictKeys l) : dictRemove l k = l := by
  induction l with
  | nil => rfl
  | cons p rest ih =>
    rw [dictKeys_cons, List.mem_cons] at h
    push_neg at h
    rw [dictRemove_cons, if_neg (fun he => h.1 he.symm), ih h.2]

theorem length_dictRemove {α β : Type} [DecidableEq α] {l : List (α × β)}
    {k : α} (hnd : (dictKeys l).Nodup) (hmem : k ∈ dictKeys l) :
    (dictRemove l k).length = l.length - 1 := by
  induction l with
  | nil => cases hmem
  | cons p rest ih =>
    rw [dictKeys_cons] at hnd hmem
    rw [dictRemove_cons]
    by_cases h : p.1 = k
    · rw [if_pos h]
      have hk : k ∉ dictKeys rest := h ▸ (List.nodup_cons.mp hnd).1
      rw [dictRemove_of_not_mem hk]
      simp
    · have hmem' : k ∈ dictKeys rest := by
        rcases List.mem_cons.mp hmem with he | he
        · exact absurd he.symm h
        · exact he
      have hpos : 0 < rest.length := by
        have : 0 < (dictKeys rest).length :=
          List.length_pos.mpr (List.ne_nil_of_mem hmem')
        rw [length_dictKeys] at this
        exact this
      rw [if_neg h, List.length_cons, List.length_cons,
        ih (List.nodup_cons.mp hnd).2 hmem']
      omega

theorem isSome_of_not_isNone {α : Type} {o : Option α}
    (h : ¬ o.isNone = true) : o.isSome = true := by
  cases o <;> simp_all

/-! ## Helper lemmas about id allocation -/

theorem get_available_id_lowest (sm : SessionManager) (i : Nat)
    (h : sm.get_available_id = some i) : isLowestUnusedId sm i := by
  have e : List.range' 1 MAX_PLAYERS = [1, 2, 3, 4] := rfl
  unfold SessionManager.get_available_id at h
  rw [e] at h
  cases e1 : (dictGet sm.sessions 1).isNone with
  | true =>
    rw [@List.find?_cons_of_pos Nat (fun j => (dictGet sm.sessions j).isNone) 1 [2, 3, 4] e1] at h
    injection h with h
    subst h
    refine ⟨by omega, by decide, Option.isNone_iff_eq_none.mp e1, ?_⟩
    intro j hj1 hj2
    omega
  | false =>
    rw [List.find?_cons_of_neg _ (by simp [e1])] at h
    cases e2 : (dictGet sm.sessions 2).isNone with
    | true =>
      rw [@List.find?_cons_of_pos Nat (fun j => (dictGet sm.sessions j).isNone) 2 [3, 4] e2] at h
      injection h with h
      subst h
      refine ⟨by omega, by decide, Option.isNone_iff_eq_none.mp e2, ?_⟩
      intro j hj1 hj2
      have : j = 1 := by omega
      subst this
      exact isSome_of_not_isNone (by simp [e1])
    | false =>
      rw [List.find?_cons_of_neg _ (by simp [e2])] at h
      cases e3 : (dictGet sm.sessions 3).isNone with
      | true =>
        rw [@List.find?_cons_of_pos Nat (fun j => (dictGet sm.sessions j).isNone) 3 [4] e3] at h
        injection h with h
        subst h
        refine ⟨by omega, by decide, Option.isNone_iff_eq_none.mp e3, ?_⟩
        intro j hj1 hj2
        interval_cases j
        · exact isSome_of_not_isNone (by simp [e1])
        · exact isSome_of_not_isNone (by simp [e2])
      | false =>
        rw [List.find?_cons_of_neg _ (by simp [e3])] at h
        cases e4 : (dictGet sm.sessions 4).isNone with
        | true =>
          rw [@List.find?_cons_of_pos Nat (fun j => (dictGet sm.sessions j).isNone) 4 [] e4] at h
          injection h with h
          subst h
          refine ⟨by omega, by decide, Option.isNone_iff_eq_none.mp e4, ?_⟩
          intro j hj1 hj2
          interval_cases j
          · exact isSome_of_not_isNone (by simp [e1])
          · exact isSome_of_not_isNone (by simp [e2])
          · exact isSome_of_not_isNone (by simp [e3])
        | false =>
          rw [List.find?_cons_of_neg _ (by simp [e4])] at h
          cases h

theorem find?_sorted_exists_le (p : Nat → Bool) :
    ∀ l : List Nat, l.Sorted (· < ·) → ∀ i, i ∈ l → p i = true →
      ∃ j, l.find? p = some j ∧ j ≤ i := by
  intro l
  induction l with
  | nil =>
    intro _ i hi
    cases hi
  | cons a rest ih =>
    intro hs i hi hp
    cases ea : p a with
    | true =>
      refine ⟨a, List.find?_cons_of_pos _ ea, ?_⟩
      rcases List.mem_cons.mp hi with he | hm
      · exact Nat.le_of_eq he.symm
      · exact Nat.le_of_lt (List.rel_of_sorted_cons hs i hm)
    | false =>
      have hia : i ≠ a := fun he => by rw [he, ea] at hp; cases hp
      have hm : i ∈ rest := by
        rcases List.mem_cons.mp hi with he | hm
        · exact absurd he hia
        · exact hm
      obtain ⟨j, hj, hji⟩ := ih hs.of_cons i hm hp
      exact ⟨j, by rw [List.find?_cons_of_neg _ (by simp [ea]), hj], hji⟩

/-! ## Helper lemmas about clamping and buttons -/

theorem clampTo_bounds (lo hi x : Rat) (h : lo ≤ hi) :
    lo ≤ clampTo lo hi x ∧ clampTo lo hi x ≤ hi :=
  ⟨le_max_left lo _, max_le h (min_le_left hi x)⟩

theorem clampTo_trigger_zero : clampTo 0 1 0 = 0 := by
  rw [clampTo, min_eq_right (by norm_num : (0 : Rat) ≤ 1), max_self]

theorem clampTo_axis_zero : clampTo (-1) 1 0 = 0 := by
  rw [clampTo, min_eq_right (by norm_num : (0 : Rat) ≤ 1),
    max_eq_right (by norm_num : (-1 : Rat) ≤ 0)]

theorem clampTo_three_halves : clampTo 0 1 (3 / 2) = 1 := by
  rw [clampTo, min_eq_left (by norm_num : (1 : Rat) ≤ 3 / 2),
    max_eq_right (by norm_num : (0 : Rat) ≤ 1)]

theorem clampTo_neg_five : clampTo (-1) 1 (-5) = -1 := by
  rw [clampTo, min_eq_right (by norm_num : (-5 : Rat) ≤ 1),
    max_eq_left (by norm_num : (-5 : Rat) ≤ -1)]

theorem mem_press_button (g : Gamepad) (b x : String) (h : x ≠ b) :
    x ∈ (g.press_button b).pressedButtons ↔ x ∈ g.pressedButtons := by
  unfold Gamepad.press_button
  by_cases hb : b ∈ g.pressedButtons
  · rw [if_pos hb]
  · rw [if_neg hb]
    simp [h]

theorem mem_release_button (g : Gamepad) (b x : String) (h : x ≠ b) :
    x ∈ (g.release_button b).pressedButtons ↔ x ∈ g.pressedButtons := by
  unfold Gamepad.release_button
  simp [List.mem_filter, h]

theorem applyButtons_not_key (buttons : List (String × Bool)) :
    ∀ (g : Gamepad) (b : String), dictGet buttons b = none →
      (b ∈ (applyButtons g buttons).pressedButtons ↔ b ∈ g.pressedButtons) := by
  induction buttons with
  | nil => exact fun g b _ => Iff.rfl
  | cons bp rest ih =>
    intro g b h
    rw [dictGet_cons] at h
    by_cases hk : bp.1 = b
    · rw [if_pos hk] at h; cases h
    · rw [if_neg hk] at h
      have hneq : b ≠ bp.1 := fun he => hk he.symm
      have hstep : applyButtons g (bp :: rest)
          = applyButtons
              (if bp.1 ∈ BUTTON_MAP then
                (if bp.2 then g.press_button bp.1 else g.release_button bp.1)
               else g) rest := rfl
      rw [hstep]
      refine (ih _ b h).trans ?_
      by_cases hbm : bp.1 ∈ BUTTON_MAP
      · rw [if_pos hbm]
        by_cases hbp : bp.2 = true
        · rw [if_pos hbp]
          exact mem_press_button g bp.1 b hneq
        · rw [if_neg hbp]
          exact mem_release_button g bp.1 b hneq
      · rw [if_neg hbm]

/-! ## Helper lemmas about the Input Sink mouse-button guards -/

theorem btnOf_left : btnOf "left" = "left" := rfl

theorem btnOf_right : btnOf "right" = "right" := by
  rw [btnOf, if_neg (by decide)]

theorem press_mouse_noop_left (mk : MKState)
    (h : mk.left_button_pressed = true) : mk.press_mouse "left" = mk := by
  simp only [MKState.press_mouse]
  rw [if_neg (by simp [h]), if_neg (fun hc => absurd hc.1 (by decide))]

theorem press_mouse_noop_right (mk : MKState)
    (h : mk.right_button_pressed = true) : mk.press_mouse "right" = mk := by
  simp only [MKState.press_mouse]
  rw [if_neg (fun hc => absurd hc.1 (by decide)), if_neg (by simp [h])]

theorem release_mouse_noop_left (mk : MKState)
    (h : mk.left_button_pressed = false) : mk.release_mouse "left" = mk := by
  simp only [MKState.release_mouse]
  rw [if_neg (by simp [h]), if_neg (fun hc => absurd hc.1 (by decide))]

theorem release_mouse_noop_right (mk : MKState)
    (h : mk.right_button_pressed = false) : mk.release_mouse "right" = mk := by
  simp only [MKState.release_mouse]
  rw [if_neg (fun hc => absurd hc.1 (by decide)), if_neg (by simp [h])]

theorem press_mouse_track (mk : MKState) (b : String)
    (h : mouseFlagsTrackHost mk) : mouseFlagsTrackHost (mk.press_mouse b) := by
  simp only [MKState.press_mouse]
  by_cases h1 : b = "left" ∧ mk.left_button_pressed = false
  · rw [if_pos h1]
    obtain ⟨hb, hf⟩ := h1
    subst hb
    rw [btnOf_left]
    unfold MKState.hostPress
    rw [if_pos rfl]
    exact ⟨rfl, h.2⟩
  · rw [if_neg h1]
    by_cases h2 : b = "right" ∧ mk.right_button_pressed = false
    · rw [if_pos h2]
      obtain ⟨hb, hf⟩ := h2
      subst hb
      rw [btnOf_right]
      unfold MKState.hostPress
      rw [if_neg (by decide)]
      exact ⟨h.1, rfl⟩
    · rw [if_neg h2]
      exact h

theorem release_mouse_track (mk : MKState) (b : String)
    (h : mouseFlagsTrackHost mk) : mouseFlagsTrackHost (mk.release_mouse b) := by
  simp only [MKState.release_mouse]
  by_cases h1 : b = "left" ∧ mk.left_button_pressed = true
  · rw [if_pos h1]
    obtain ⟨hb, hf⟩ := h1
    subst hb
    rw [btnOf_left]
    unfold MKState.hostRelease
    rw [if_pos rfl]
    exact ⟨rfl, h.2⟩
  · rw [if_neg h1]
    by_cases h2 : b = "right" ∧ mk.right_button_pressed = true
    · rw [if_pos h2]
      obtain ⟨hb, hf⟩ := h2
      subst hb
      rw [btnOf_right]
      unfold MKState.hostRelease
      rw [if_neg (by decide)]
      exact ⟨h.1, rfl⟩
    · rw [if_neg h2]
      exact h

theorem runMouseOps_track (ops : List MouseOp) :
    ∀ mk, mouseFlagsTrackHost mk → mouseFlagsTrackHost (runMouseOps mk ops) := by
  induction ops with
  | nil => exact fun mk h => h
  | cons op rest ih =>
    intro mk h
    cases op with
    | press b => exact ih _ (press_mouse_track mk b h)
    | release b => exact ih _ (release_mouse_track mk b h)

/-! ## Claim C4 -/

/-- C4: every input snapshot applied to a bound controller has each trigger
value clamped into the interval from 0 to 1 and each axis value clamped into
the interval from -1 to 1 before being pushed to the device; a trigger value
of 3/2 is applied as 1 and an axis value of -5 as -1; out-of-range input is
corrected, never rejected (update_state is total and pushes a snapshot). -/
theorem c4_clamping (c : VirtualController) (hconn : c.is_connected = true)
    (buttons : List (String × Bool)) (triggers axes : List (String × Rat)) :
    ∃ g, (c.update_state buttons triggers axes).gamepad = some g
      ∧ g.lt = clampTo 0 1 (floatGet triggers "lt")
      ∧ g.rt = clampTo 0 1 (floatGet triggers "rt")
      ∧ g.left_x = clampTo (-1) 1 (floatGet axes "left_x")
      ∧ g.left_y = clampTo (-1) 1 (floatGet axes "left_y")
      ∧ g.right_x = clampTo (-1) 1 (floatGet axes "right_x")
      ∧ g.right_y = clampTo (-1) 1 (floatGet axes "right_y")
      ∧ 0 ≤ g.lt ∧ g.lt ≤ 1 ∧ 0 ≤ g.rt ∧ g.rt ≤ 1
      ∧ -1 ≤ g.left_x ∧ g.left_x ≤ 1 ∧ -1 ≤ g.left_y ∧ g.left_y ≤ 1
      ∧ -1 ≤ g.right_x ∧ g.right_x ≤ 1 ∧ -1 ≤ g.right_y ∧ g.right_y ≤ 1
      ∧ (floatGet triggers "lt" = 3 / 2 → g.lt = 1)
      ∧ (floatGet axes "left_x" = -5 → g.left_x = -1) := by
  have hsome : c.gamepad.isSome = true := by
    unfold VirtualController.is_connected at hconn
    exact (Bool.and_eq_true _ _).mp hconn |>.2
  obtain ⟨g0, hg0⟩ := Option.isSome_iff_exists.mp hsome
  simp only [VirtualController.update_state, hconn, if_true, hg0]
  refine ⟨_, rfl, rfl, rfl, rfl, rfl, rfl, rfl, ?_, ?_, ?_, ?_, ?_, ?_, ?_,
    ?_, ?_, ?_, ?_, ?_, ?_, ?_⟩
  · exact (clampTo_bounds 0 1 _ (by norm_num)).1
  · exact (clampTo_bounds 0 1 _ (by norm_num)).2
  · exact (clampTo_bounds 0 1 _ (by norm_num)).1
  · exact (clampTo_bounds 0 1 _ (by norm_num)).2
  · exact (clampTo_bounds (-1) 1 _ (by norm_num)).1
  · exact (clampTo_bounds (-1) 1 _ (by norm_num)).2
  · exact (clampTo_bounds (-1) 1 _ (by norm_num)).1
  · exact (clampTo_bounds (-1) 1 _ (by norm_num)).2
  · exact (clampTo_bounds (-1) 1 _ (by norm_num)).1
  · exact (clampTo_bounds (-1) 1 _ (by norm_num)).2
  · exact (clampTo_bounds (-1) 1 _ (by norm_num)).1
  · exact (clampTo_bounds (-1) 1 _ (by norm_num)).2
  · intro h
    rw [h]
    exact clampTo_three_halves
  · intro h
    rw [h]
    exact clampTo_neg_five

/-- Witness for C4 at a fresh bound controller with lt = 3/2 and
left_x = -5. -/
theorem c4_clamping_witness :
    ∃ g, ((freshController 1).update_state [] [("lt", 3 / 2)]
            [("left_x", -5)]).gamepad = some g
      ∧ g.lt = clampTo 0 1 (floatGet [("lt", 3 / 2)] "lt")
      ∧ g.rt = clampTo 0 1 (floatGet [("lt", 3 / 2)] "rt")
      ∧ g.left_x = clampTo (-1) 1 (floatGet [("left_x", -5)] "left_x")
      ∧ g.left_y = clampTo (-1) 1 (floatGet [("left_x", -5)] "left_y")
      ∧ g.right_x = clampTo (-1) 1 (floatGet [("left_x", -5)] "right_x")
      ∧ g.right_y = clampTo (-1) 1 (floatGet [("left_x", -5)] "right_y")
      ∧ 0 ≤ g.lt ∧ g.lt ≤ 1 ∧ 0 ≤ g.rt ∧ g.rt ≤ 1
      ∧ -1 ≤ g.left_x ∧ g.left_x ≤ 1 ∧ -1 ≤ g.left_y ∧ g.left_y ≤ 1
      ∧ -1 ≤ g.right_x ∧ g.right_x ≤ 1 ∧ -1 ≤ g.right_y ∧ g.right_y ≤ 1
      ∧ (floatGet [("lt", 3 / 2)] "lt" = 3 / 2 → g.lt = 1)
      ∧ (floatGet [("left_x", -5)] "left_x" = -5 → g.left_x = -1) :=
  c4_clamping (freshController 1) rfl [] [("lt", 3 / 2)] [("left_x", -5)]

/-! ## Claim C6 -/

/-- C6: add_player with an already-registered connection returns that
connection's existing player id, creates no new session, and leaves the
whole state, in particular the live-session count, unchanged. -/
theorem c6_add_idempotent (st : ServerState) (ws : Conn) (pid : Nat)
    (now : Nat) (providerOk : Bool)
    (h : dictGet st.sm.websocket_to_player ws = some pid) :
    st.add_player ws now providerOk = (st, some pid)
    ∧ (st.add_player ws now providerOk).1.sm.get_player_count
        = st.sm.get_player_count := by
  have he : st.add_player ws now providerOk = (st, some pid) := by
    unfold ServerState.add_player
    rw [h]
  exact ⟨he, by rw [he]⟩

/-- Witness for C6: re-adding websocket 100, registered as player 1. -/
theorem c6_add_idempotent_witness :
    sampleState.add_player 100 9 true = (sampleState, some 1)
    ∧ (sampleState.add_player 100 9 true).1.sm.get_player_count
        = sampleState.sm.get_player_count :=
  c6_add_idempotent sampleState 100 1 9 true rfl

/-! ## Claim C7 -/

/-- C7: an input snapshot for a player id with no active binding is a
no-op: the whole server state is unchanged and nothing is raised; likewise
update_state on an unconnected controller changes nothing. -/
theorem c7_apply_no_binding (st : ServerState) (player_id : Nat) (now : Nat)
    (h : st.cm.get_controller player_id = none)
    (buttons : List (String × Bool)) (triggers axes : List (String × Rat)) :
    st.process_message player_id (ClientMsg.input buttons triggers axes) now = st
    ∧ ∀ c : VirtualController, c.is_connected = false →
        c.update_state buttons triggers axes = c := by
  constructor
  · unfold ServerState.process_message
    rw [h]
  · intro c hc
    unfold VirtualController.update_state
    rw [hc]
    simp

/-- Witness for C7: sampleState has a session for player 1 but no bound
controller. -/
theorem c7_apply_no_binding_witness :
    sampleState.process_message 1
        (ClientMsg.input [("a", true)] [("lt", 1)] []) 5 = sampleState
    ∧ ∀ c : VirtualController, c.is_connected = false →
        c.update_state [("a", true)] [("lt", 1)] [] = c :=
  c7_apply_no_binding sampleState 1 5 rfl [("a", true)] [("lt", 1)] []

/-! ## Claim C8 -/

theorem broadcast_foldl (message : String) (exclude_player : Option Nat)
    (sendOk : Conn → Bool) (sessions : List (Nat × PlayerSession)) :
    ∀ acc : List (Conn × String) × List Nat,
      sessions.foldl
        (fun acc ps =>
          if skipInBroadcast exclude_player ps.1 then acc
          else if sendOk ps.2.websocket then
            (acc.1 ++ [(ps.2.websocket, message)], acc.2)
          else (acc.1, acc.2 ++ [ps.1])) acc
      = (acc.1 ++ (sessions.filter (fun ps =>
            !skipInBroadcast exclude_player ps.1 && sendOk ps.2.websocket)).map
              (fun ps => (ps.2.websocket, message)),
         acc.2 ++ (sessions.filter (fun ps =>
            !skipInBroadcast exclude_player ps.1 && !sendOk ps.2.websocket)).map
              Prod.fst) := by
  induction sessions with
  | nil => intro acc; simp
  | cons ps rest ih =>
    intro acc
    rw [List.foldl_cons, List.filter_cons, List.filter_cons]
    by_cases hskip : skipInBroadcast exclude_player ps.1 = true
    · rw [if_pos hskip, ih]
      simp [hskip]
    · have hskip' : skipInBroadcast exclude_player ps.1 = false :=
        Bool.not_eq_true _ ▸ hskip
      rw [if_neg hskip]
      by_cases hsend : sendOk ps.2.websocket = true
      · rw [if_pos hsend, ih]
        simp [hskip', hsend]
      · have hsend' : sendOk ps.2.websocket = false :=
          Bool.not_eq_true _ ▸ hsend
        rw [if_neg hsend, ih]
        simp [hskip', hsend']

/-- C8: broadcast attempts a send to every live session except the excluded
player id; the delivered list is exactly the non-excluded sessions whose
send succeeds and the failure log exactly the non-excluded sessions whose
send fails, so one recipient's failure never blocks or drops delivery to
any other recipient. -/
theorem c8_broadcast (sm : SessionManager) (message : String)
    (exclude_player : Option Nat) (sendOk : Conn → Bool) :
    (sm.broadcast message exclude_player sendOk).1
      = (sm.sessions.filter (fun ps =>
            !skipInBroadcast exclude_player ps.1 && sendOk ps.2.websocket)).map
          (fun ps => (ps.2.websocket, message))
    ∧ (sm.broadcast message exclude_player sendOk).2
      = (sm.sessions.filter (fun ps =>
            !skipInBroadcast exclude_player ps.1 && !sendOk ps.2.websocket)).map
          Prod.fst := by
  unfold SessionManager.broadcast
  rw [broadcast_foldl]
  simp

/-! ## Claim C9 -/

/-- C9: any trigger or axis field absent from an applied snapshot is pushed
to the device as 0 (neutral), while button names absent from the snapshot
keep their previous pressed state on the device. -/
theorem c9_partial_snapshot (c : VirtualController) (g : Gamepad)
    (hg : c.gamepad = some g) (hconn : c.is_connected = true)
    (buttons : List (String × Bool)) (triggers axes : List (String × Rat)) :
    ∃ g2, (c.update_state buttons triggers axes).gamepad = some g2
      ∧ (dictGet triggers "lt" = none → g2.lt = 0)
      ∧ (dictGet triggers "rt" = none → g2.rt = 0)
      ∧ (dictGet axes "left_x" = none → g2.left_x = 0)
      ∧ (dictGet axes "left_y" = none → g2.left_y = 0)
      ∧ (dictGet axes "right_x" = none → g2.right_x = 0)
      ∧ (dictGet axes "right_y" = none → g2.right_y = 0)
      ∧ ∀ b, dictGet buttons b = none →
          (b ∈ g2.pressedButtons ↔ b ∈ g.pressedButtons) := by
  simp only [VirtualController.update_state, hconn, if_true, hg]
  refine ⟨_, rfl, ?_, ?_, ?_, ?_, ?_, ?_, ?_⟩
  · intro h
    simp only [floatGet, h, Option.getD_none]
    exact clampTo_trigger_zero
  · intro h
    simp only [floatGet, h, Option.getD_none]
    exact clampTo_trigger_zero
  · intro h
    simp only [floatGet, h, Option.getD_none]
    exact clampTo_axis_zero
  · intro h
    simp only [floatGet, h, Option.getD_none]
    exact clampTo_axis_zero
  · intro h
    simp only [floatGet, h, Option.getD_none]
    exact clampTo_axis_zero
  · intro h
    simp only [floatGet, h, Option.getD_none]
    exact clampTo_axis_zero
  · exact fun b hb => applyButtons_not_key buttons g b hb

/-- Witness for C9 at a fresh bound controller and an entirely empty
snapshot. -/
theorem c9_partial_snapshot_witness :
    ∃ g2, ((freshController 1).update_state [] [] []).gamepad = some g2
      ∧ (dictGet ([] : List (String × Rat)) "lt" = none → g2.lt = 0)
      ∧ (dictGet ([] : List (String × Rat)) "rt" = none → g2.rt = 0)
      ∧ (dictGet ([] : List (String × Rat)) "left_x" = none → g2.left_x = 0)
      ∧ (dictGet ([] : List (String × Rat)) "left_y" = none → g2.left_y = 0)
      ∧ (dictGet ([] : List (String × Rat)) "right_x" = none → g2.right_x = 0)
      ∧ (dictGet ([] : List (String × Rat)) "right_y" = none → g2.right_y = 0)
      ∧ ∀ b, dictGet ([] : List (String × Bool)) b = none →
          (b ∈ g2.pressedButtons ↔ b ∈ Gamepad.init.pressedButtons) :=
  c9_partial_snapshot (freshController 1) Gamepad.init rfl rfl [] [] []

/-! ## Claim C10 -/

/-- C10: mouse press and release at the Input Sink are state-guarded per
button: pressing an already-pressed button is a no-op, releasing a
not-pressed button is a no-op, and after any sequence of press/release
calls from the initial state the tracked pressed flag of each button equals
whether the host button is held. -/
theorem c10_mouse_guarded :
    (∀ mk : MKState, mk.left_button_pressed = true →
        mk.press_mouse "left" = mk)
    ∧ (∀ mk : MKState, mk.right_button_pressed = true →
        mk.press_mouse "right" = mk)
    ∧ (∀ mk : MKState, mk.left_button_pressed = false →
        mk.release_mouse "left" = mk)
    ∧ (∀ mk : MKState, mk.right_button_pressed = false →
        mk.release_mouse "right" = mk)
    ∧ ∀ ops : List MouseOp, mouseFlagsTrackHost (runMouseOps MKState.init ops) :=
  ⟨press_mouse_noop_left, press_mouse_noop_right, release_mouse_noop_left,
   release_mouse_noop_right,
   fun ops => runMouseOps_track ops MKState.init ⟨rfl, rfl⟩⟩

/-- Witness for C10: a concrete double press and a release on the initial
state. -/
theorem c10_mouse_guarded_witness :
    (MKState.init.press_mouse "left").press_mouse "left"
        = MKState.init.press_mouse "left"
    ∧ MKState.init.release_mouse "right" = MKState.init
    ∧ mouseFlagsTrackHost (runMouseOps MKState.init
        [MouseOp.press "left", MouseOp.release "left", MouseOp.press "right"]) :=
  ⟨c10_mouse_guarded.1 (MKState.init.press_mouse "left") rfl,
   c10_mouse_guarded.2.2.2.1 MKState.init rfl,
   c10_mouse_guarded.2.2.2.2
     [MouseOp.press "left", MouseOp.release "left", MouseOp.press "right"]⟩

/-! ## Claim C2 -/

/-- C2 is refuted at a concrete input: on a fresh server, a connect whose
device creation fails (provider unavailable) still returns player id 1,
leaves the session registered with no controller bound, sends the normal
welcome frame rather than an error frame, and closes nothing — the claimed
rollback does not happen. -/
theorem c2_bind_failure_counterexample :
    (ServerState.handle_client_connect initServer 7 0 false).2 = some 1
    ∧ dictGet (ServerState.handle_client_connect initServer 7 0 false).1.sm.sessions 1
        = some ⟨1, 7, 0, 0⟩
    ∧ dictGet (ServerState.handle_client_connect initServer 7 0 false).1.cm.controllers 1
        = none
    ∧ (ServerState.handle_client_connect initServer 7 0 false).1.sent
        = [(7, OutFrame.connectedFrame 1)]
    ∧ (ServerState.handle_client_connect initServer 7 0 false).1.closedConns = [] :=
  ⟨rfl, rfl, rfl, rfl, rfl⟩

/-- C2 corrected: when creating the virtual device for a newly accepted
connection fails, the error is only logged; the session registration is NOT
undone, no error frame is sent and the connection is not closed — the
welcome frame still goes out and a session without a device binding
remains registered. -/
theorem c2_bind_failure_amended (st : ServerState) (ws : Conn) (now : Nat)
    (pid : Nat)
    (hws : dictGet st.sm.websocket_to_player ws = none)
    (havail : st.sm.get_available_id = some pid)
    (hctl : dictGet st.cm.controllers pid = none) :
    (st.handle_client_connect ws now false).2 = some pid
    ∧ dictGet (st.handle_client_connect ws now false).1.sm.sessions pid
        = some ⟨pid, ws, now, now⟩
    ∧ dictGet (st.handle_client_connect ws now false).1.cm.controllers pid = none
    ∧ (st.handle_client_connect ws now false).1.sent
        = st.sent ++ [(ws, OutFrame.connectedFrame pid)]
    ∧ (st.handle_client_connect ws now false).1.closedConns = st.closedConns := by
  obtain ⟨hp1, hp4, hnone, _⟩ := get_available_id_lowest st.sm pid havail
  have hcc : st.cm.create_controller pid false = (none, st.cm) := by
    unfold ControllerManager.create_controller
    rw [if_neg (by unfold MAX_CONTROLLERS; unfold MAX_PLAYERS at hp4; omega), hctl]
    simp [VirtualController.connect]
  have hget : dictGet (st.sm.sessions ++ [(pid, ⟨pid, ws, now, now⟩)]) pid
      = some ⟨pid, ws, now, now⟩ := by
    rw [dictGet_append, hnone]
    simp [dictGet_cons]
  simp only [ServerState.handle_client_connect, ServerState.add_player, hws,
    havail, ServerState.on_player_connected, hcc]
  exact ⟨by simp, hget, hctl, by simp, by simp⟩

/-- Witness for C2 amended, at a fresh server. -/
theorem c2_bind_failure_amended_witness :
    (initServer.handle_client_connect 7 0 false).2 = some 1
    ∧ dictGet (initServer.handle_client_connect 7 0 false).1.sm.sessions 1
        = some ⟨1, 7, 0, 0⟩
    ∧ dictGet (initServer.handle_client_connect 7 0 false).1.cm.controllers 1 = none
    ∧ (initServer.handle_client_connect 7 0 false).1.sent
        = initServer.sent ++ [(7, OutFrame.connectedFrame 1)]
    ∧ (initServer.handle_client_connect 7 0 false).1.closedConns
        = initServer.closedConns :=
  c2_bind_failure_amended initServer 7 0 1 rfl rfl rfl

/-! ## Claim C5 -/

theorem lastInput_update_activity (sm : SessionManager) (pid : Nat) (now : Nat)
    (s : PlayerSession) (hs : dictGet sm.sessions pid = some s) :
    dictGet (sm.update_activity pid now).sessions pid
      = some (s.update_activity now) := by
  unfold SessionManager.update_activity
  rw [hs]
  exact dictGet_dictSet_self _ hs

/-- C5 is refuted at a concrete input: with player 1's recorded activity
instant 0, processing a ping at instant 5 leaves the activity instant at 0
rather than updating it to 5 (the ping branch never calls
update_activity; the disconnect branch behaves the same way). -/
theorem c5_activity_counterexample :
    lastInputAt (sampleState.process_message 1 ClientMsg.ping 5) 1 = some 0
    ∧ lastInputAt (sampleState.process_message 1 ClientMsg.ping 5) 1 ≠ some 5
    ∧ lastInputAt (sampleState.process_message 1 ClientMsg.disconnect 5) 1 = some 0
    ∧ lastInputAt sampleState 1 = some 0 :=
  ⟨rfl, by decide, rfl, rfl⟩

/-- C5 corrected: mouse and keyboard messages always update the session's
activity instant, an input message updates it exactly when a controller is
bound (and is a complete no-op otherwise), while ping and disconnect — though
successfully dispatched — do NOT touch the activity instant (ping only sends
pong, disconnect only closes), and an unknown type or malformed payload
leaves the whole server state, activity instant and device state included,
unchanged. -/
theorem c5_activity_amended (st : ServerState) (pid : Nat) (now : Nat)
    (s : PlayerSession) (hs : dictGet st.sm.sessions pid = some s) :
    (∀ action dx dy button, lastInputAt
        (st.process_message pid (ClientMsg.mouse action dx dy button) now) pid
          = some now)
    ∧ (∀ action text key ks, lastInputAt
        (st.process_message pid (ClientMsg.keyboard action text key ks) now) pid
          = some now)
    ∧ (∀ buttons triggers axes,
        (dictGet st.cm.controllers pid).isSome = true →
        lastInputAt
          (st.process_message pid (ClientMsg.input buttons triggers axes) now) pid
            = some now)
    ∧ (∀ buttons triggers axes, dictGet st.cm.controllers pid = none →
        st.process_message pid (ClientMsg.input buttons triggers axes) now = st)
    ∧ lastInputAt (st.process_message pid ClientMsg.ping now) pid
        = some s.last_input_at
    ∧ (st.process_message pid ClientMsg.ping now).sm = st.sm
    ∧ (st.process_message pid ClientMsg.ping now).cm = st.cm
    ∧ lastInputAt (st.process_message pid ClientMsg.disconnect now) pid
        = some s.last_input_at
    ∧ (∀ t, st.process_message pid (ClientMsg.unknownType t) now = st)
    ∧ st.process_message pid ClientMsg.malformed now = st := by
  refine ⟨?_, ?_, ?_, ?_, ?_, ?_, ?_, ?_, ?_, ?_⟩
  · intro action dx dy button
    simp only [ServerState.process_message, lastInputAt]
    rw [lastInput_update_activity st.sm pid now s hs]
    rfl
  · intro action text key ks
    simp only [ServerState.process_message, lastInputAt]
    rw [lastInput_update_activity st.sm pid now s hs]
    rfl
  · intro buttons triggers axes hc
    obtain ⟨c0, hc0⟩ := Option.isSome_iff_exists.mp hc
    simp only [ServerState.process_message, ControllerManager.get_controller,
      hc0, lastInputAt]
    rw [lastInput_update_activity st.sm pid now s hs]
    rfl
  · intro buttons triggers axes hc
    simp only [ServerState.process_message, ControllerManager.get_controller, hc]
  · simp only [ServerState.process_message, SessionManager.get_session, hs,
      lastInputAt]
    rfl
  · simp only [ServerState.process_message, SessionManager.get_session, hs]
  · simp only [ServerState.process_message, SessionManager.get_session, hs]
  · simp only [ServerState.process_message, SessionManager.get_session, hs,
      lastInputAt]
    rfl
  · intro t
    rfl
  · rfl

/-- Witness for C5 amended, at sampleState for player 1 at instant 5. -/
theorem c5_activity_amended_witness :
    (∀ action dx dy button, lastInputAt
        (sampleState.process_message 1 (ClientMsg.mouse action dx dy button) 5) 1
          = some 5)
    ∧ (∀ action text key ks, lastInputAt
        (sampleState.process_message 1 (ClientMsg.keyboard action text key ks) 5) 1
          = some 5)
    ∧ (∀ buttons triggers axes,
        (dictGet sampleState.cm.controllers 1).isSome = true →
        lastInputAt
          (sampleState.process_message 1 (ClientMsg.input buttons triggers axes) 5) 1
            = some 5)
    ∧ (∀ buttons triggers axes, dictGet sampleState.cm.controllers 1 = none →
        sampleState.process_message 1 (ClientMsg.input buttons triggers axes) 5
          = sampleState)
    ∧ lastInputAt (sampleState.process_message 1 ClientMsg.ping 5) 1
        = some sampleSession.last_input_at
    ∧ (sampleState.process_message 1 ClientMsg.ping 5).sm = sampleState.sm
    ∧ (sampleState.process_message 1 ClientMsg.ping 5).cm = sampleState.cm
    ∧ lastInputAt (sampleState.process_message 1 ClientMsg.disconnect 5) 1
        = some sampleSession.last_input_at
    ∧ (∀ t, sampleState.process_message 1 (ClientMsg.unknownType t) 5
        = sampleState)
    ∧ sampleState.process_message 1 ClientMsg.malformed 5 = sampleState :=
  c5_activity_amended sampleState 1 5 sampleSession rfl

/-! ## Claim C3 -/

theorem update_activity_preserves (sm : SessionManager) (pid now : Nat) :
    (sm.update_activity pid now).websocket_to_player = sm.websocket_to_player
    ∧ dictKeys (sm.update_activity pid now).sessions = dictKeys sm.sessions := by
  unfold SessionManager.update_activity
  cases h : dictGet sm.sessions pid
  · exact ⟨rfl, rfl⟩
  · exact ⟨rfl, dictKeys_dictSet _ _ _⟩

theorem process_message_preserves (st : ServerState) (pid : Nat)
    (msg : ClientMsg) (now : Nat) :
    (st.process_message pid msg now).sm.websocket_to_player
        = st.sm.websocket_to_player
    ∧ dictKeys (st.process_message pid msg now).sm.sessions
        = dictKeys st.sm.sessions
    ∧ dictKeys (st.process_message pid msg now).cm.controllers
        = dictKeys st.cm.controllers
    ∧ (st.process_message pid msg now).releases = st.releases := by
  cases msg with
  | input buttons triggers axes =>
    unfold ServerState.process_message
    cases h : st.cm.get_controller pid with
    | none => exact ⟨rfl, rfl, rfl, rfl⟩
    | some c =>
      exact ⟨(update_activity_preserves st.sm pid now).1,
        (update_activity_preserves st.sm pid now).2,
        dictKeys_dictSet _ _ _, rfl⟩
  | mouse action dx dy button =>
    exact ⟨(update_activity_preserves st.sm pid now).1,
      (update_activity_preserves st.sm pid now).2, rfl, rfl⟩
  | keyboard action text key ks =>
    exact ⟨(update_activity_preserves st.sm pid now).1,
      (update_activity_preserves st.sm pid now).2, rfl, rfl⟩
  | ping =>
    unfold ServerState.process_message
    cases h : st.sm.get_session pid <;> exact ⟨rfl, rfl, rfl, rfl⟩
  | disconnect =>
    unfold ServerState.process_message
    cases h : st.sm.get_session pid <;> exact ⟨rfl, rfl, rfl, rfl⟩
  | unknownType t => exact ⟨rfl, rfl, rfl, rfl⟩
  | malformed => exact ⟨rfl, rfl, rfl, rfl⟩

theorem runReceiveLoop_preserves (msgs : List (ClientMsg × Nat)) :
    ∀ (st : ServerState) (pid : Nat),
      (st.runReceiveLoop pid msgs).sm.websocket_to_player
          = st.sm.websocket_to_player
      ∧ dictKeys (st.runReceiveLoop pid msgs).sm.sessions
          = dictKeys st.sm.sessions
      ∧ dictKeys (st.runReceiveLoop pid msgs).cm.controllers
          = dictKeys st.cm.controllers
      ∧ (st.runReceiveLoop pid msgs).releases = st.releases := by
  induction msgs with
  | nil => exact fun st pid => ⟨rfl, rfl, rfl, rfl⟩
  | cons m rest ih =>
    intro st pid
    have h1 := process_message_preserves st pid m.1 m.2
    have h2 := ih (st.process_message pid m.1 m.2) pid
    exact ⟨h2.1.trans h1.1, h2.2.1.trans h1.2.1, h2.2.2.1.trans h1.2.2.1,
      h2.2.2.2.trans h1.2.2.2⟩

/-- C3: for a connection whose handshake succeeded (it holds a registered
session and a bound controller), whenever its receive loop ends — after any
sequence of processed messages and for every way the loop can end — the
cleanup path runs: the session and its websocket mapping are removed, the
live-session count drops by exactly one, the controller is removed with
exactly one device release for that player, and the freed player id is
immediately allocatable again (the next allocation returns an id at most
the freed one). -/
theorem c3_cleanup_always (st : ServerState) (ws : Conn) (player_id : Nat)
    (msgs : List (ClientMsg × Nat)) (ending : LoopEnd)
    (hws : dictGet st.sm.websocket_to_player ws = some player_id)
    (hsess : (dictGet st.sm.sessions player_id).isSome = true)
    (hctl : (dictGet st.cm.controllers player_id).isSome = true)
    (hnd : (dictKeys st.sm.sessions).Nodup)
    (hp1 : 1 ≤ player_id) (hp4 : player_id ≤ MAX_PLAYERS) :
    dictGet (st.handle_client_session ws player_id msgs ending).sm.sessions
        player_id = none
    ∧ dictGet
        (st.handle_client_session ws player_id msgs ending).sm.websocket_to_player
        ws = none
    ∧ (st.handle_client_session ws player_id msgs ending).sm.get_player_count
        = st.sm.get_player_count - 1
    ∧ dictGet (st.handle_client_session ws player_id msgs ending).cm.controllers
        player_id = none
    ∧ (st.handle_client_session ws player_id msgs ending).releases
        = st.releases ++ [player_id]
    ∧ ∃ j, (st.handle_client_session ws player_id msgs ending).sm.get_available_id
        = some j ∧ j ≤ player_id := by
  obtain ⟨hw, hk, hck, hrel⟩ := runReceiveLoop_preserves msgs st player_id
  have hwsL : dictGet (st.runReceiveLoop player_id msgs).sm.websocket_to_player ws
      = some player_id := by rw [hw]; exact hws
  have hctlL : (dictGet (st.runReceiveLoop player_id msgs).cm.controllers
      player_id).isSome = true := by
    rw [dictGet_isSome_iff] at hctl ⊢
    rw [hck]
    exact hctl
  obtain ⟨c0, hc0⟩ := Option.isSome_iff_exists.mp hctlL
  have hremc : (st.runReceiveLoop player_id msgs).cm.remove_controller player_id
      = (⟨dictRemove (st.runReceiveLoop player_id msgs).cm.controllers player_id⟩,
         true) := by
    unfold ControllerManager.remove_controller
    rw [hc0]
  have hndL : (dictKeys (st.runReceiveLoop player_id msgs).sm.sessions).Nodup := by
    rw [hk]; exact hnd
  have hsessL : player_id ∈ dictKeys (st.runReceiveLoop player_id msgs).sm.sessions := by
    rw [hk]
    exact (dictGet_isSome_iff _ _).mp hsess
  have hlenL : (st.runReceiveLoop player_id msgs).sm.sessions.length
      = st.sm.sessions.length := by
    have := congrArg List.length hk
    rw [length_dictKeys, length_dictKeys] at this
    exact this
  simp only [ServerState.handle_client_session, ServerState.remove_player, hwsL,
    ServerState.on_player_disconnected, hremc, if_true]
  refine ⟨dictGet_dictRemove_self _ _, dictGet_dictRemove_self _ _, ?_,
    dictGet_dictRemove_self _ _, by rw [hrel], ?_⟩
  · unfold SessionManager.get_player_count
    rw [length_dictRemove hndL hsessL, hlenL]
  · have hmem : player_id ∈ [1, 2, 3, 4] := by
      unfold MAX_PLAYERS at hp4
      simp only [List.mem_cons, List.mem_singleton]
      omega
    have hp : (dictGet (dictRemove
        (st.runReceiveLoop player_id msgs).sm.sessions player_id) player_id).isNone
          = true := by
      rw [dictGet_dictRemove_self]
      rfl
    exact find?_sorted_exists_le _ [1, 2, 3, 4] (by decide) player_id hmem hp

/-- Witness for C3: a bound player 1 on websocket 100 processes a ping and
then its loop ends with an exception. -/
theorem c3_cleanup_always_witness :
    dictGet (sampleBoundState.handle_client_session 100 1 [(ClientMsg.ping, 3)]
        LoopEnd.exception).sm.sessions 1 = none
    ∧ dictGet (sampleBoundState.handle_client_session 100 1 [(ClientMsg.ping, 3)]
        LoopEnd.exception).sm.websocket_to_player 100 = none
    ∧ (sampleBoundState.handle_client_session 100 1 [(ClientMsg.ping, 3)]
        LoopEnd.exception).sm.get_player_count
          = sampleBoundState.sm.get_player_count - 1
    ∧ dictGet (sampleBoundState.handle_client_session 100 1 [(ClientMsg.ping, 3)]
        LoopEnd.exception).cm.controllers 1 = none
    ∧ (sampleBoundState.handle_client_session 100 1 [(ClientMsg.ping, 3)]
        LoopEnd.exception).releases = sampleBoundState.releases ++ [1]
    ∧ ∃ j, (sampleBoundState.handle_client_session 100 1 [(ClientMsg.ping, 3)]
        LoopEnd.exception).sm.get_available_id = some j ∧ j ≤ 1 :=
  c3_cleanup_always sampleBoundState 100 1 [(ClientMsg.ping, 3)]
    LoopEnd.exception rfl rfl rfl (by decide) (by decide) (by decide)

/-! ## Claim C1 -/

theorem dictKeys_map_pair_fst {γ : Type} (l : List (Nat × Conn))
    (f : Nat × Conn → γ) :
    dictKeys (l.map (fun p => (p.1, f p))) = l.map Prod.fst := by
  unfold dictKeys
  rw [List.map_map]
  rfl

theorem dictKeys_map_pair_snd (l : List (Nat × Conn)) :
    dictKeys (l.map (fun p => (p.2, p.1))) = l.map Prod.snd := by
  unfold dictKeys
  rw [List.map_map]
  rfl

theorem snd_pairsFromAux (l : List Conn) :
    ∀ s, (pairsFromAux s l).map Prod.snd = l := by
  induction l with
  | nil => intro s; rfl
  | cons c rest ih => intro s; simp [pairsFromAux, ih (s + 1)]

theorem fst_pairsFromAux_mem (l : List Conn) :
    ∀ s j, j ∈ (pairsFromAux s l).map Prod.fst ↔ s ≤ j ∧ j < s + l.length := by
  induction l with
  | nil => intro s j; simp [pairsFromAux]
  | cons c rest ih =>
    intro s j
    simp [pairsFromAux, ih (s + 1) j]
    omega

theorem pairsFromAux_append (l : List Conn) (c : Conn) :
    ∀ s, pairsFromAux s (l ++ [c]) = pairsFromAux s l ++ [(s + l.length, c)] := by
  induction l with
  | nil => intro s; simp [pairsFromAux]
  | cons a rest ih =>
    intro s
    simp [pairsFromAux, ih (s + 1)]
    omega

theorem pairsFromAux_append1 (l : List Conn) (c : Conn) :
    pairsFromAux 1 (l ++ [c]) = pairsFromAux 1 l ++ [(l.length + 1, c)] := by
  rw [pairsFromAux_append l c 1, Nat.add_comm 1 l.length]

theorem find?_isNone_range4 {β : Type} (q : Nat → Option β) (n : Nat)
    (hn : n < 4) (hq : ∀ j, 1 ≤ j → j ≤ 4 → ((q j).isNone = true ↔ n < j)) :
    List.find? (fun i => (q i).isNone) [1, 2, 3, 4] = some (n + 1) := by
  have pt : ∀ j, 1 ≤ j → j ≤ 4 → n < j → (q j).isNone = true :=
    fun j h1 h4 hlt => (hq j h1 h4).mpr hlt
  have pf : ∀ j, 1 ≤ j → j ≤ 4 → ¬ n < j → (q j).isNone = false := by
    intro j h1 h4 hge
    cases e : (q j).isNone
    · rfl
    · exact absurd ((hq j h1 h4).mp e) hge
  interval_cases n
  · rw [@List.find?_cons_of_pos Nat (fun i => (q i).isNone) 1 [2, 3, 4]
      (pt 1 (by omega) (by omega) (by omega))]
  · rw [@List.find?_cons_of_neg Nat (fun i => (q i).isNone) 1 [2, 3, 4]
      (by simp [pf 1 (by omega) (by omega) (by omega)]),
     @List.find?_cons_of_pos Nat (fun i => (q i).isNone) 2 [3, 4]
      (pt 2 (by omega) (by omega) (by omega))]
  · rw [@List.find?_cons_of_neg Nat (fun i => (q i).isNone) 1 [2, 3, 4]
      (by simp [pf 1 (by omega) (by omega) (by omega)]),
     @List.find?_cons_of_neg Nat (fun i => (q i).isNone) 2 [3, 4]
      (by simp [pf 2 (by omega) (by omega) (by omega)]),
     @List.find?_cons_of_pos Nat (fun i => (q i).isNone) 3 [4]
      (pt 3 (by omega) (by omega) (by omega))]
  · rw [@List.find?_cons_of_neg Nat (fun i => (q i).isNone) 1 [2, 3, 4]
      (by simp [pf 1 (by omega) (by omega) (by omega)]),
     @List.find?_cons_of_neg Nat (fun i => (q i).isNone) 2 [3, 4]
      (by simp [pf 2 (by omega) (by omega) (by omega)]),
     @List.find?_cons_of_neg Nat (fun i => (q i).isNone) 3 [4]
      (by simp [pf 3 (by omega) (by omega) (by omega)]),
     @List.find?_cons_of_pos Nat (fun i => (q i).isNone) 4 []
      (pt 4 (by omega) (by omega) (by omega))]

theorem find?_isNone_range4_full {β : Type} (q : Nat → Option β)
    (hq : ∀ j, 1 ≤ j → j ≤ 4 → (q j).isSome = true) :
    List.find? (fun i => (q i).isNone) [1, 2, 3, 4] = none := by
  rw [List.find?_eq_none]
  intro a ha
  have hb : 1 ≤ a ∧ a ≤ 4 := by
    simp at ha
    omega
  have hsome := hq a hb.1 hb.2
  cases e : q a
  · rw [e] at hsome; cases hsome
  · simp [e]

theorem wsGet_expectedAfter (conns : List Conn) (c : Conn) (hc : c ∉ conns) :
    dictGet (expectedAfter conns).sm.websocket_to_player c = none := by
  rw [dictGet_eq_none_iff]
  show c ∉ dictKeys ((pairsFromAux 1 conns).map (fun p => (p.2, p.1)))
  rw [dictKeys_map_pair_snd, snd_pairsFromAux]
  exact hc

theorem sessionsGet_expectedAfter_isNone (conns : List Conn) (j : Nat) :
    (dictGet (expectedAfter conns).sm.sessions j).isNone = true
      ↔ ¬ (1 ≤ j ∧ j < 1 + conns.length) := by
  rw [Option.isNone_iff_eq_none, dictGet_eq_none_iff]
  show j ∉ dictKeys ((pairsFromAux 1 conns).map
    (fun p => (p.1, (⟨p.1, p.2, 0, 0⟩ : PlayerSession)))) ↔ _
  rw [dictKeys_map_pair_fst]
  rw [fst_pairsFromAux_mem conns 1 j]

theorem availId_expectedAfter (conns : List Conn) (hlen : conns.length < 4) :
    (expectedAfter conns).sm.get_available_id = some (conns.length + 1) := by
  unfold SessionManager.get_available_id
  have e : List.range' 1 MAX_PLAYERS = [1, 2, 3, 4] := rfl
  rw [e]
  apply find?_isNone_range4 _ conns.length hlen
  intro j hj1 hj4
  rw [sessionsGet_expectedAfter_isNone]
  omega

theorem availId_expectedAfter_full (conns : List Conn)
    (hlen : conns.length = 4) :
    (expectedAfter conns).sm.get_available_id = none := by
  unfold SessionManager.get_available_id
  have e : List.range' 1 MAX_PLAYERS = [1, 2, 3, 4] := rfl
  rw [e]
  apply find?_isNone_range4_full
  intro j hj1 hj4
  exact isSome_of_not_isNone (by
    rw [sessionsGet_expectedAfter_isNone]
    omega)

theorem connect_step (pre : List Conn) (c : Conn) (hc : c ∉ pre)
    (hlen : pre.length < 4) :
    (expectedAfter pre).handle_client_connect c 0 true
      = (expectedAfter (pre ++ [c]), some (pre.length + 1)) := by
  have hws := wsGet_expectedAfter pre c hc
  have havail := availId_expectedAfter pre hlen
  have hcget : dictGet (expectedAfter pre).cm.controllers (pre.length + 1)
      = none := by
    rw [dictGet_eq_none_iff]
    show pre.length + 1 ∉ dictKeys ((pairsFromAux 1 pre).map
      (fun p => (p.1, freshController p.1)))
    rw [dictKeys_map_pair_fst (f := fun p => freshController p.1)]
    rw [fst_pairsFromAux_mem pre 1 (pre.length + 1)]
    omega
  have hcc : (expectedAfter pre).cm.create_controller (pre.length + 1) true
      = (some (freshController (pre.length + 1)),
         ⟨(expectedAfter pre).cm.controllers
           ++ [(pre.length + 1, freshController (pre.length + 1))]⟩) := by
    unfold ControllerManager.create_controller
    rw [if_neg (by unfold MAX_CONTROLLERS; omega), hcget]
    simp [VirtualController.connect, VirtualController.new, freshController]
  simp only [ServerState.handle_client_connect, ServerState.add_player, hws,
    havail, ServerState.on_player_connected, hcc]
  simp only [expectedAfter, pairsFromAux_append1, List.map_append]
  rfl

theorem runConnects_expected (rest : List Conn) :
    ∀ pre : List Conn, (pre ++ rest).Nodup → pre.length + rest.length ≤ 4 →
      runConnects (expectedAfter pre) rest
        = (expectedAfter (pre ++ rest),
           (List.range' (pre.length + 1) rest.length).map some) := by
  induction rest with
  | nil =>
    intro pre _ _
    simp [runConnects]
  | cons c rest ih =>
    intro pre hnd hlen
    have hc : c ∉ pre := by
      intro hmem
      exact (List.nodup_append.mp hnd).2.2 hmem (List.mem_cons_self c rest)
    have hlt : pre.length < 4 := by
      simp only [List.length_cons] at hlen
      omega
    have hstep := connect_step pre c hc hlt
    have hnd' : ((pre ++ [c]) ++ rest).Nodup := by
      rw [List.append_assoc, List.singleton_append]
      exact hnd
    have hlen' : (pre ++ [c]).length + rest.length ≤ 4 := by
      rw [List.length_append, List.length_singleton]
      simp only [List.length_cons] at hlen
      omega
    simp only [runConnects]
    rw [hstep]
    rw [ih (pre ++ [c]) hnd' hlen']
    rw [List.append_assoc, List.singleton_append]
    rw [List.length_append, List.length_singleton, List.length_cons]
    rw [List.range'_succ]
    rfl

/-- C1: on an initially empty registry, a sequence of N distinct connect
attempts with N at most 4 assigns the ids 1, 2, ..., N in order (hence
pairwise distinct ids in 1..4), every id handed out by add_player to a new
connection is the lowest unused integer in 1..MAX_PLAYERS, and once all 4
slots are taken a further connect attempt is sent the server-full error
frame and closed without creating any session or binding. -/
theorem c1_connect_allocation (conns : List Conn) (hnd : conns.Nodup)
    (hlen : conns.length ≤ 4) :
    ((runConnects initServer conns).2 = (List.range' 1 conns.length).map some
      ∧ ∀ (st : ServerState) (ws : Conn) (now : Nat) (ok : Bool) (pid : Nat),
          dictGet st.sm.websocket_to_player ws = none →
          (st.add_player ws now ok).2 = some pid →
          isLowestUnusedId st.sm pid)
    ∧ ∀ c, conns.length = 4 → c ∉ conns →
        ((runConnects initServer conns).1.handle_client_connect c 0 true).2 = none
        ∧ ((runConnects initServer conns).1.handle_client_connect c 0 true).1.sm
            = (runConnects initServer conns).1.sm
        ∧ ((runConnects initServer conns).1.handle_client_connect c 0 true).1.cm
            = (runConnects initServer conns).1.cm
        ∧ ((runConnects initServer conns).1.handle_client_connect c 0 true).1.sent
            = (runConnects initServer conns).1.sent
              ++ [(c, OutFrame.errorFrame serverFullError)]
        ∧ ((runConnects initServer conns).1.handle_client_connect c 0 true).1.closedConns
            = (runConnects initServer conns).1.closedConns ++ [c] := by
  have hrun : runConnects initServer conns
      = (expectedAfter conns, (List.range' 1 conns.length).map some) := by
    have h := runConnects_expected conns [] (by simpa using hnd)
      (by simpa using hlen)
    simpa [expectedAfter, pairsFromAux] using h
  constructor
  · constructor
    · rw [hrun]
    · intro st ws now ok pid hws hadd
      unfold ServerState.add_player at hadd
      rw [hws] at hadd
      cases e : st.sm.get_available_id with
      | none => rw [e] at hadd; cases hadd
      | some q =>
        rw [e] at hadd
        injection hadd with hadd
        subst hadd
        exact get_available_id_lowest st.sm q e
  · intro c h4 hcmem
    have hws : dictGet (runConnects initServer conns).1.sm.websocket_to_player c
        = none := by
      rw [hrun]
      exact wsGet_expectedAfter conns c hcmem
    have havail : (runConnects initServer conns).1.sm.get_available_id = none := by
      rw [hrun]
      exact availId_expectedAfter_full conns h4
    simp only [ServerState.handle_client_connect, ServerState.add_player, hws,
      havail]
    exact ⟨by simp, by simp, by simp, by simp, by simp⟩

/-- Witness for C1 at three distinct connect attempts. -/
theorem c1_connect_allocation_witness :
    ((runConnects initServer [10, 11, 12]).2
        = (List.range' 1 ([10, 11, 12] : List Conn).length).map some
      ∧ ∀ (st : ServerState) (ws : Conn) (now : Nat) (ok : Bool) (pid : Nat),
          dictGet st.sm.websocket_to_player ws = none →
          (st.add_player ws now ok).2 = some pid →
          isLowestUnusedId st.sm pid)
    ∧ ∀ c, ([10, 11, 12] : List Conn).length = 4 → c ∉ ([10, 11, 12] : List Conn) →
        ((runConnects initServer [10, 11, 12]).1.handle_client_connect c 0 true).2 = none
        ∧ ((runConnects initServer [10, 11, 12]).1.handle_client_connect c 0 true).1.sm
            = (runConnects initServer [10, 11, 12]).1.sm
        ∧ ((runConnects initServer [10, 11, 12]).1.handle_client_connect c 0 true).1.cm
            = (runConnects initServer [10, 11, 12]).1.cm
        ∧ ((runConnects initServer [10, 11, 12]).1.handle_client_connect c 0 true).1.sent
            = (runConnects initServer [10, 11, 12]).1.sent
              ++ [(c, OutFrame.errorFrame serverFullError)]
        ∧ ((runConnects initServer [10, 11, 12]).1.handle_client_connect c 0 true).1.closedConns
            = (runConnects initServer [10, 11, 12]).1.closedConns ++ [c] :=
  c1_connect_allocation [10, 11, 12] (by decide) (by decide)

end XboxController
